import Mathlib

/-!
Verification of the OCR3 plugin interface layer of `libocr`
(`src/offchainreporting2plus/ocr3types/plugin.go`).

The file under `src/` declares the data model (payload types, `OutcomeContext`,
the symbolic `Quorum` kinds, protocol-wide payload ceilings) and the
`ReportingPlugin` capability set together with its contracts, stated in doc
comments.  The surrounding engine (quorum resolver, outcome chain, round
orchestrator, plugin lifecycle, report routing) belongs to this repository but
is not under `src/`; those parts are modelled from the spec, each such
definition marked `Modelled from the spec:` in its doc comment.

Byte payloads (`Query`, `Observation`, `Outcome`, `Report` are all Go `[]byte`
newtypes) are embedded as `List Nat`; a Go slice that may be `nil` is embedded
as `Option Bytes`, with `none` for `nil` — in Go a `nil` slice is
distinguishable from an empty one.
-/

namespace Ocr3Types

/-- Go `[]byte` payload contents (`Outcome`, `Query`, `Observation`, `Report`
are all `[]byte` newtypes in the source). -/
abbrev Bytes := List Nat

/-- From `plugin.go` lines 63–79: `OutcomeContext` carries the round `SeqNr`,
the `PreviousOutcome` and the deprecated legacy `Epoch`/`Round` fields.
`PreviousOutcome` has Go type `Outcome` (`[]byte`), which may be `nil`
(line 67: "The initial SeqNr value is 1. Its PreviousOutcome is nil."); the
nilable slice is embedded as `Option Bytes` with `none` for Go `nil`. -/
structure OutcomeContext where
  seqNr : Nat
  previousOutcome : Option Bytes
  epoch : Nat
  round : Nat

/-- From `plugin.go` line 260: `mib = 1024 * 1024`. -/
def mib : Nat := 1024 * 1024

/-- From `plugin.go` line 261: `MaxMaxQueryLength = 5 * mib`. -/
def MaxMaxQueryLength : Nat := 5 * mib

/-- From `plugin.go` line 262: `MaxMaxObservationLength = 1 * mib`. -/
def MaxMaxObservationLength : Nat := 1 * mib

/-- From `plugin.go` line 263: `MaxMaxOutcomeLength = 5 * mib`. -/
def MaxMaxOutcomeLength : Nat := 5 * mib

/-- From `plugin.go` line 264: `MaxMaxReportLength = 5 * mib`. -/
def MaxMaxReportLength : Nat := 5 * mib

/-- From `plugin.go` line 265: `MaxMaxReportCount = 2000`. -/
def MaxMaxReportCount : Nat := 2000

/-- From `plugin.go` lines 81–92: the `iota` block
`QuorumFPlusOne Quorum = types.MaxOracles + 1 + iota` gives the first symbolic
quorum constant the value `types.MaxOracles + 1`.  `types.MaxOracles` is
declared in the `types` package of this repository, which is not under `src/`,
so the constants are kept parametric in its value. -/
def QuorumFPlusOne (maxOracles : Nat) : Nat := maxOracles + 1 + 0

/-- From `plugin.go` lines 81–92: second constant of the `iota` block,
`types.MaxOracles + 1 + 1`. -/
def QuorumTwoFPlusOne (maxOracles : Nat) : Nat := maxOracles + 1 + 1

/-- From `plugin.go` lines 81–92: third constant of the `iota` block,
`types.MaxOracles + 1 + 2`. -/
def QuorumByzQuorum (maxOracles : Nat) : Nat := maxOracles + 1 + 2

/-- From `plugin.go` lines 81–92: fourth constant of the `iota` block,
`types.MaxOracles + 1 + 3`. -/
def QuorumNMinusF (maxOracles : Nat) : Nat := maxOracles + 1 + 3

/-- The four symbolic quorum kinds of `plugin.go` lines 83–92, as an
enumeration (the spec, §3: "a symbolic threshold kind (FPlusOne, TwoFPlusOne,
ByzQuorum, NMinusF); never a raw count at interfaces"). -/
inductive QuorumKind
  | fPlusOne
  | twoFPlusOne
  | byzQuorum
  | nMinusF
deriving DecidableEq, Repr

/-- Modelled from the spec: the Quorum Resolver (§4.1), whose implementation
is not under `src/` (only the symbolic `Quorum` kind declarations are).
"`Resolve(kind, N, F) -> count`, pure and total over four kinds:
FPlusOne = F+1; TwoFPlusOne = 2F+1; ByzQuorum = ⌈(N+F+1)/2⌉; NMinusF = N−F."
The ceiling `⌈(N+F+1)/2⌉` over naturals is `(N+F+1+1)/2` with truncating
division. -/
def Resolve (kind : QuorumKind) (n f : Nat) : Nat :=
  match kind with
  | .fPlusOne => f + 1
  | .twoFPlusOne => 2 * f + 1
  | .byzQuorum => (n + f + 1 + 1) / 2
  | .nMinusF => n - f

/-- Modelled from the spec: the Outcome Chain (§4.4), "append-only mapping
SeqNr→Outcome", whose implementation is not under `src/`.  Entry `i` of the
list is the committed outcome for SeqNr `i + 1` (SeqNr starts at 1 and the
chain is gapless, §3). -/
abbrev Chain := List Bytes

/-- Modelled from the spec: committing an outcome for a SeqNr (§4.4, §8
"Committing the same SeqNr twice with differing payloads is rejected on the
second write").  The chain is append-only and gapless, so a commit is accepted
only at the next free SeqNr; recommitting an already committed SeqNr is
rejected (`none`). -/
def commit (c : Chain) (seqNr : Nat) (o : Bytes) : Option Chain :=
  if seqNr = c.length + 1 then some (c ++ [o]) else none

/-- Modelled from the spec: reading the committed outcome for a SeqNr from the
Outcome Chain (§4.4).  SeqNr 0 does not exist (SeqNrs start at 1); a SeqNr
beyond the chain has no committed outcome yet. -/
def committedOutcome (c : Chain) (seqNr : Nat) : Option Bytes :=
  if 1 ≤ seqNr then c.get? (seqNr - 1) else none

/-- Modelled from the spec: building round `seqNr`'s `OutcomeContext` from the
chain (§4.4: entry `k−1` "is exactly the PreviousOutcome threaded into round
k's context — no copy or mutation occurs between commit and reuse"; §3:
`PreviousOutcome` is "the unique outcome for SeqNr−1, absent when SeqNr=1").
The legacy `Epoch`/`Round` fields are carried opaquely. -/
def mkOutcomeContext (c : Chain) (seqNr epoch round : Nat) : OutcomeContext :=
  { seqNr := seqNr
    previousOutcome := committedOutcome c (seqNr - 1)
    epoch := epoch
    round := round }

/-- Outcome of a single call on the plugin, distinguishing a graceful error
return from a Go panic (the source contract for `Close`, `plugin.go` lines
248–249: "If Close is called a second time, it may return an error but must
not panic"). -/
inductive CallOutcome (α : Type)
  | ok (a : α)
  | err (msg : String)
  | panicked
deriving DecidableEq, Repr

/-- Modelled from the spec: the state the Plugin Lifecycle Manager keeps for
one plugin instance (§4.3 "Close tears down an instance", §7
"LifecycleMisuse"); the lifecycle code is not under `src/`. -/
structure LifecycleState where
  closed : Bool
deriving DecidableEq, Repr

/-- Modelled from the spec: a freshly created plugin instance (§4.5, one
instance per protocol run), not yet closed. -/
def freshInstance : LifecycleState := { closed := false }

/-- Modelled from the spec: `Close` (§4.3: "a second invocation must return an
error, never fail catastrophically"; `plugin.go` lines 248–253).  Returns the
new lifecycle state and the call outcome; a second call errs gracefully and
never panics. -/
def closePlugin (s : LifecycleState) : LifecycleState × CallOutcome Unit :=
  if s.closed then (s, .err "already closed") else ({ closed := true }, .ok ())

/-- Modelled from the spec: invoking any protocol stage on an instance (§4.3:
"no stage may execute after Close returns"; §7 "LifecycleMisuse (double Close,
or any stage after Close) — surfaced as an error, must not crash the
process").  The stage body `f` runs only while the instance is open. -/
def invokeStage {α : Type} (s : LifecycleState) (f : Unit → α) : CallOutcome α :=
  if s.closed then .err "closed" else .ok (f ())

/-- From `plugin.go` / the `types` package (§3 of the spec): an
`AttributedObservation` is "an Observation plus the producing oracle's index
(0..N−1)". -/
structure AttributedObservation where
  observation : Bytes
  observer : Nat
deriving DecidableEq, Repr

/-- The part of the `ReportingPlugin` capability set (`plugin.go` lines
148–254) that a single round consults.  `validateObservation` returns `true`
exactly when the Go `ValidateObservation` returns no error; `outcome` and
`observationQuorum` are the pure functions the source doc comments require
("This function should be pure"). -/
structure RoundPlugin where
  validateObservation : OutcomeContext → Bytes → AttributedObservation → Bool
  observationQuorum : OutcomeContext → Bytes → QuorumKind
  outcome : OutcomeContext → Bytes → List AttributedObservation → Bytes

/-- Modelled from the spec: the Round Orchestrator's validation filter (§4.3
ObservationGathering: "Each arrival is passed to ValidateObservation; failures
are discarded without aborting the round"); the orchestrator is not under
`src/`.  The order of the surviving observations is arrival order. -/
def validObservations (p : RoundPlugin) (ctx : OutcomeContext) (q : Bytes)
    (arrivals : List AttributedObservation) : List AttributedObservation :=
  arrivals.filter (fun ao => p.validateObservation ctx q ao)

/-- Modelled from the spec: the per-SeqNr round states of the Round
Orchestrator (§4.3).  `observationGathering` carries the arrivals so far;
`outcomeComputed` carries the single outcome produced for the SeqNr; the
post-outcome report stages do not matter for the round-level claims and are
not distinguished here. -/
inductive RoundState
  | queryPending
  | observationGathering (arrivals : List AttributedObservation)
  | outcomeComputed (o : Bytes)
  | skipped
deriving DecidableEq, Repr

/-- Modelled from the spec: the Round Orchestrator's transition relation for
one SeqNr (§4.3), for a fixed plugin, configuration `(n, f)` and round context
and query.  Observations arrive one at a time; the round may move to the
outcome stage only when the count of valid observations has reached the count
resolved from the `Quorum` kind returned by `ObservationQuorum`; a timeout or
error before the outcome stage skips the round (committing nothing). -/
inductive RoundStep (p : RoundPlugin) (n f : Nat) (ctx : OutcomeContext) (q : Bytes) :
    RoundState → RoundState → Prop
  | query :
      RoundStep p n f ctx q .queryPending (.observationGathering [])
  | arrive (arrivals : List AttributedObservation) (ao : AttributedObservation) :
      RoundStep p n f ctx q (.observationGathering arrivals)
        (.observationGathering (arrivals ++ [ao]))
  | computeOutcome (arrivals : List AttributedObservation)
      (h : Resolve (p.observationQuorum ctx q) n f ≤
        (validObservations p ctx q arrivals).length) :
      RoundStep p n f ctx q (.observationGathering arrivals)
        (.outcomeComputed (p.outcome ctx q (validObservations p ctx q arrivals)))
  | skipQuery :
      RoundStep p n f ctx q .queryPending .skipped
  | skipGathering (arrivals : List AttributedObservation) :
      RoundStep p n f ctx q (.observationGathering arrivals) .skipped

/-- Reachability of a round state from the start of the round. -/
def RoundReach (p : RoundPlugin) (n f : Nat) (ctx : OutcomeContext) (q : Bytes) :
    RoundState → RoundState → Prop :=
  Relation.ReflTransGen (RoundStep p n f ctx q)

/-- The accept/transmit decision functions of the `ReportingPlugin`
(`plugin.go` lines 224–246).  Both receive only the report's SeqNr and the
report itself, so in this model they cannot observe any call history, round
state or sibling report: the decisions are pure functions of their
arguments.  `true` models the Go function returning `(true, nil)`. -/
structure ReportPlugin where
  shouldAccept : Nat → Bytes → Bool
  shouldTransmit : Nat → Bytes → Bool

/-- Modelled from the spec: the per-report routing states (§4.3
ReportsGenerated): a generated report is attested externally, then checked by
`ShouldAcceptAttestedReport`, and an accepted report is checked by
`ShouldTransmitAcceptedReport` immediately before transmission. -/
inductive ReportState
  | pendingAttestation
  | attested
  | accepted
  | rejected
  | transmitted
  | notTransmitted
deriving DecidableEq, Repr

/-- Modelled from the spec: the per-report routing relation (§4.3; the routing
code is not under `src/`).  Each report is routed through its own independent
copy of this machine, so no ordering exists between distinct reports'
transitions.  `acceptTrue`/`acceptFalse` model the only invocations of
`ShouldAcceptAttestedReport`: they originate from `attested` alone.
`transmitTrue`/`transmitFalse` model the only invocations of
`ShouldTransmitAcceptedReport`: they originate from `accepted` alone, and a
positive decision transitions directly to `transmitted`. -/
inductive ReportStep (p : ReportPlugin) (seqNr : Nat) (r : Bytes) :
    ReportState → ReportState → Prop
  | attest :
      ReportStep p seqNr r .pendingAttestation .attested
  | acceptTrue (h : p.shouldAccept seqNr r = true) :
      ReportStep p seqNr r .attested .accepted
  | acceptFalse (h : p.shouldAccept seqNr r = false) :
      ReportStep p seqNr r .attested .rejected
  | transmitTrue (h : p.shouldTransmit seqNr r = true) :
      ReportStep p seqNr r .accepted .transmitted
  | transmitFalse (h : p.shouldTransmit seqNr r = false) :
      ReportStep p seqNr r .accepted .notTransmitted

/-- Reachability of a report routing state from report generation. -/
def ReportReach (p : ReportPlugin) (seqNr : Nat) (r : Bytes) :
    ReportState → ReportState → Prop :=
  Relation.ReflTransGen (ReportStep p seqNr r)

/-- Modelled from the spec: the Plugin Adapter's byte-length ceiling on
observation payloads (§4.2: "byte-length ceilings on
query/observation/outcome/report payloads"; the adapter is not under `src/`).
A payload is within the limit iff its length does not exceed the configured
maximum. -/
def observationWithinLimit (maxObservationLength : Nat) (payload : Bytes) : Bool :=
  decide (payload.length ≤ maxObservationLength)

/-- Modelled from the spec: the Plugin Adapter discarding oversized
observation payloads (§4.2: "Any violation is a local malformed-output fault:
the offending item is discarded and the round continues").  The surviving
payloads, in arrival order, are what the quorum count sees. -/
def sizeValidObservations (maxObservationLength : Nat) (arrivals : List Bytes) : List Bytes :=
  arrivals.filter (fun payload => observationWithinLimit maxObservationLength payload)

/-! ## Trace lemmas shared by the round-level claims -/

/-- Any way of reaching the outcome stage from the start of a round passes
through a gathering state whose valid observations meet the resolved quorum
count, and the produced outcome is `Outcome` applied to exactly those
validated observations. -/
theorem roundReach_outcome_inversion {p : RoundPlugin} {n f : Nat}
    {ctx : OutcomeContext} {q : Bytes} {o : Bytes}
    (h : RoundReach p n f ctx q .queryPending (.outcomeComputed o)) :
    ∃ arrivals, Resolve (p.observationQuorum ctx q) n f ≤
        (validObservations p ctx q arrivals).length ∧
      o = p.outcome ctx q (validObservations p ctx q arrivals) := by
  rcases Relation.ReflTransGen.cases_tail h with heq | ⟨c, _, hstep⟩
  · simp at heq
  · cases hstep with
    | computeOutcome arrivals hquorum => exact ⟨arrivals, hquorum, rfl⟩

/-! ## Claims -/

/-- C1: For every valid configuration (N > 0 and 0 ≤ F < N), the quorum
resolver maps each symbolic kind to its count: `Resolve(FPlusOne) = F+1`,
`Resolve(TwoFPlusOne) = 2F+1`, `Resolve(NMinusF) = N−F`, and
`Resolve(ByzQuorum) = ⌈(N+F+1)/2⌉`, stated as: it is the least `m` with
`N+F+1 ≤ 2m`.  `Resolve` is a total Lean function over an enumeration of
exactly the four kinds, hence pure, total and deterministic. -/
theorem resolve_maps_each_kind (n f : Nat) (hN : 0 < n) (hF : f < n) :
    Resolve .fPlusOne n f = f + 1 ∧
    Resolve .twoFPlusOne n f = 2 * f + 1 ∧
    Resolve .nMinusF n f = n - f ∧
    (n + f + 1 ≤ 2 * Resolve .byzQuorum n f ∧
      ∀ m, n + f + 1 ≤ 2 * m → Resolve .byzQuorum n f ≤ m) := by
  refine ⟨rfl, rfl, rfl, ?_, ?_⟩ <;> simp only [Resolve] <;> omega

/-- Witness for C1 at N = 4, F = 1: `Resolve` yields 2, 3, 3 and the
ByzQuorum count 3 = ⌈6/2⌉. -/
theorem resolve_maps_each_kind_witness :
    Resolve .fPlusOne 4 1 = 1 + 1 ∧
    Resolve .twoFPlusOne 4 1 = 2 * 1 + 1 ∧
    Resolve .nMinusF 4 1 = 4 - 1 ∧
    (4 + 1 + 1 ≤ 2 * Resolve .byzQuorum 4 1 ∧
      ∀ m, 4 + 1 + 1 ≤ 2 * m → Resolve .byzQuorum 4 1 ≤ m) :=
  resolve_maps_each_kind 4 1 (by decide) (by decide)

/-- C5: For the initial round (SeqNr = 1), the `PreviousOutcome` of the
`OutcomeContext` built from any chain state is the explicit absent value
(`none`, Go `nil`), which is distinguishable from — and in particular never
equal to — a zero-length payload `some []`. -/
theorem previousOutcome_initial_absent (c : Chain) (e r : Nat) :
    (mkOutcomeContext c 1 e r).previousOutcome = none ∧
    (mkOutcomeContext c 1 e r).previousOutcome ≠ some ([] : Bytes) ∧
    (none : Option Bytes) ≠ some ([] : Bytes) := by
  refine ⟨rfl, ?_, ?_⟩ <;> simp [mkOutcomeContext, committedOutcome]

/-- C2: For every SeqNr there is exactly one committed outcome — the chain
maps a SeqNr to at most one outcome and re-committing an already committed
SeqNr is rejected — and for every round `k ≥ 2` the `PreviousOutcome` carried
in round `k`'s `OutcomeContext` is byte-identical (`Eq`) to the unique outcome
committed for SeqNr `k − 1`; an entry is immutable once committed: later
commits leave it unchanged, and the context holds the committed entry itself,
not a copy. -/
theorem outcome_chain_unique_and_chained (c : Chain) (k e r : Nat) (h2 : 2 ≤ k) :
    (∀ o1 o2, committedOutcome c k = some o1 → committedOutcome c k = some o2 → o1 = o2) ∧
    (∀ s o, s ≤ c.length → commit c s o = none) ∧
    (mkOutcomeContext c k e r).previousOutcome = committedOutcome c (k - 1) ∧
    (∀ s o' c' o, commit c s o' = some c' →
      committedOutcome c (k - 1) = some o → committedOutcome c' (k - 1) = some o) := by
  refine ⟨?_, ?_, rfl, ?_⟩
  · intro o1 o2 ho1 ho2
    rw [ho1] at ho2
    exact Option.some.inj ho2
  · intro s o hs
    have hne : s ≠ c.length + 1 := by omega
    simp [commit, hne]
  · intro s o' c' o hcommit hprev
    have h1 : 1 ≤ k - 1 := by omega
    unfold commit at hcommit
    split at hcommit
    · unfold committedOutcome at hprev ⊢
      rw [if_pos h1] at hprev ⊢
      have hlt : k - 1 - 1 < c.length := (List.get?_eq_some.mp hprev).1
      rw [← Option.some.inj hcommit, List.get?_append hlt]
      exact hprev
    · exact absurd hcommit (by simp)

/-- Witness for C2 at the concrete chain `[[1], [2]]`, round `k = 3`: after
committing `[7]` for SeqNr 3, the outcome committed for SeqNr 2 is still
`[2]`. -/
theorem outcome_chain_unique_and_chained_witness :
    committedOutcome [[1], [2], [7]] 2 = some [2] :=
  (outcome_chain_unique_and_chained [[1], [2]] 3 0 0 (by decide)).2.2.2
    3 [7] [[1], [2], [7]] [2] rfl rfl

/-- C4: A second `Close` on the same plugin instance returns an error and does
not panic; the first `Close` succeeds, and after `Close` returns no stage
executes: invoking any stage on the closed instance yields an error without
running the stage body. -/
theorem close_twice_errors_no_stage_after (s : LifecycleState) (h : s.closed = false) :
    (closePlugin s).2 = CallOutcome.ok () ∧
    (closePlugin (closePlugin s).1).2 = CallOutcome.err "already closed" ∧
    (closePlugin (closePlugin s).1).2 ≠ CallOutcome.panicked ∧
    ∀ (f : Unit → Bytes), invokeStage (closePlugin s).1 f = CallOutcome.err "closed" := by
  obtain ⟨c⟩ := s
  cases c
  · exact ⟨rfl, rfl, by simp [closePlugin], fun f => rfl⟩
  · simp at h

/-- Witness for C4 at a freshly created instance. -/
theorem close_twice_errors_no_stage_after_witness :
    (closePlugin freshInstance).2 = CallOutcome.ok () ∧
    (closePlugin (closePlugin freshInstance).1).2 = CallOutcome.err "already closed" ∧
    (closePlugin (closePlugin freshInstance).1).2 ≠ CallOutcome.panicked ∧
    ∀ (f : Unit → Bytes), invokeStage (closePlugin freshInstance).1 f =
      CallOutcome.err "closed" :=
  close_twice_errors_no_stage_after freshInstance rfl

/-- C7: For any configured maximum observation length `L`, a payload of
exactly `L` bytes passes the adapter's length check while a payload of `L + 1`
bytes fails it and is discarded: it is dropped from the surviving-observation
sequence (the other participants' payloads are kept, so the round is not
aborted) and it does not contribute to the valid-observation count used for
the quorum check. -/
theorem observation_at_limit_accepted_over_limit_discarded
    (L : Nat) (p q : Bytes) (pre post : List Bytes)
    (hp : p.length = L) (hq : q.length = L + 1) :
    observationWithinLimit L p = true ∧
    observationWithinLimit L q = false ∧
    sizeValidObservations L (pre ++ q :: post) =
      sizeValidObservations L pre ++ sizeValidObservations L post ∧
    (sizeValidObservations L (pre ++ q :: post)).length =
      (sizeValidObservations L (pre ++ post)).length := by
  have hqf : observationWithinLimit L q = false := by
    simp only [observationWithinLimit, decide_eq_false_iff_not]
    omega
  have hfilter : sizeValidObservations L (pre ++ q :: post) =
      sizeValidObservations L pre ++ sizeValidObservations L post := by
    simp [sizeValidObservations, List.filter_append, List.filter_cons, hqf]
  refine ⟨?_, hqf, hfilter, ?_⟩
  · simp only [observationWithinLimit, decide_eq_true_eq]
    omega
  · rw [hfilter]
    simp [sizeValidObservations, List.filter_append]

/-- Witness for C7 at `L = 2`: the two-byte payload `[0, 0]` is accepted, the
three-byte payload `[0, 0, 0]` is discarded and does not count. -/
theorem observation_at_limit_accepted_over_limit_discarded_witness :
    observationWithinLimit 2 [0, 0] = true ∧
    observationWithinLimit 2 [0, 0, 0] = false ∧
    sizeValidObservations 2 ([[1]] ++ [0, 0, 0] :: [[2]]) =
      sizeValidObservations 2 [[1]] ++ sizeValidObservations 2 [[2]] ∧
    (sizeValidObservations 2 ([[1]] ++ [0, 0, 0] :: [[2]])).length =
      (sizeValidObservations 2 ([[1]] ++ [[2]])).length :=
  observation_at_limit_accepted_over_limit_discarded 2 [0, 0] [0, 0, 0]
    [[1]] [[2]] rfl rfl

/-- C6: The protocol-wide default payload ceilings of `plugin.go` lines
259–266 equal the stated values, with 1 MiB = 1024·1024 bytes: query 5 MiB,
observation 1 MiB, outcome 5 MiB, report 5 MiB, report count 2000. -/
theorem default_payload_ceilings :
    mib = 1024 * 1024 ∧
    MaxMaxQueryLength = 5 * (1024 * 1024) ∧
    MaxMaxObservationLength = 1024 * 1024 ∧
    MaxMaxOutcomeLength = 5 * (1024 * 1024) ∧
    MaxMaxReportLength = 5 * (1024 * 1024) ∧
    MaxMaxReportCount = 2000 := by
  refine ⟨rfl, rfl, ?_, rfl, rfl, rfl⟩
  simp [MaxMaxObservationLength, mib]

/-- C10: The four symbolic `Quorum` constants are pairwise distinct
consecutive integers starting at `types.MaxOracles + 1`, so each is strictly
greater than `types.MaxOracles`; hence no symbolic kind value can coincide
with an achievable raw observation count, which is at most `N ≤ MaxOracles`.
Stated parametrically in the value of `types.MaxOracles` (declared outside
`src/`), so it holds whatever that constant is. -/
theorem quorum_constants_distinct_above_maxOracles (maxOracles count : Nat)
    (hcount : count ≤ maxOracles) :
    QuorumFPlusOne maxOracles + 1 = QuorumTwoFPlusOne maxOracles ∧
    QuorumTwoFPlusOne maxOracles + 1 = QuorumByzQuorum maxOracles ∧
    QuorumByzQuorum maxOracles + 1 = QuorumNMinusF maxOracles ∧
    QuorumFPlusOne maxOracles ≠ QuorumTwoFPlusOne maxOracles ∧
    QuorumFPlusOne maxOracles ≠ QuorumByzQuorum maxOracles ∧
    QuorumFPlusOne maxOracles ≠ QuorumNMinusF maxOracles ∧
    QuorumTwoFPlusOne maxOracles ≠ QuorumByzQuorum maxOracles ∧
    QuorumTwoFPlusOne maxOracles ≠ QuorumNMinusF maxOracles ∧
    QuorumByzQuorum maxOracles ≠ QuorumNMinusF maxOracles ∧
    maxOracles < QuorumFPlusOne maxOracles ∧
    count < QuorumFPlusOne maxOracles ∧
    count ≠ QuorumFPlusOne maxOracles ∧
    count ≠ QuorumTwoFPlusOne maxOracles ∧
    count ≠ QuorumByzQuorum maxOracles ∧
    count ≠ QuorumNMinusF maxOracles := by
  unfold QuorumFPlusOne QuorumTwoFPlusOne QuorumByzQuorum QuorumNMinusF
  refine ⟨?_, ?_, ?_, ?_, ?_, ?_, ?_, ?_, ?_, ?_, ?_, ?_, ?_, ?_, ?_⟩ <;> omega

/-- Witness for C10 at `MaxOracles = 31` (the repository's value) and an
observation count of 31. -/
theorem quorum_constants_distinct_above_maxOracles_witness :
    QuorumFPlusOne 31 + 1 = QuorumTwoFPlusOne 31 ∧
    QuorumTwoFPlusOne 31 + 1 = QuorumByzQuorum 31 ∧
    QuorumByzQuorum 31 + 1 = QuorumNMinusF 31 ∧
    QuorumFPlusOne 31 ≠ QuorumTwoFPlusOne 31 ∧
    QuorumFPlusOne 31 ≠ QuorumByzQuorum 31 ∧
    QuorumFPlusOne 31 ≠ QuorumNMinusF 31 ∧
    QuorumTwoFPlusOne 31 ≠ QuorumByzQuorum 31 ∧
    QuorumTwoFPlusOne 31 ≠ QuorumNMinusF 31 ∧
    QuorumByzQuorum 31 ≠ QuorumNMinusF 31 ∧
    31 < QuorumFPlusOne 31 ∧
    31 < QuorumFPlusOne 31 ∧
    31 ≠ QuorumFPlusOne 31 ∧
    31 ≠ QuorumTwoFPlusOne 31 ∧
    31 ≠ QuorumByzQuorum 31 ∧
    31 ≠ QuorumNMinusF 31 :=
  quorum_constants_distinct_above_maxOracles 31 31 (by decide)

/-- C3: In every round, `Outcome` is invoked only after the count of valid
observations has reached the count resolved from the `Quorum` kind returned
by `ObservationQuorum`: (1) reaching the outcome stage from the start of the
round requires a gathering state whose valid observations meet the resolved
count, and the single produced outcome is `Outcome` of exactly those
observations, so a round whose valid-observation count never reaches the
resolved count never invokes `Outcome`; (2) no direct step to the outcome
stage exists from a below-quorum gathering state; (3) the outcome stage is
terminal, so the round produces exactly one outcome. -/
theorem roundOutcome_only_after_observationQuorum (p : RoundPlugin) (n f : Nat)
    (ctx : OutcomeContext) (q : Bytes) :
    (∀ o, RoundReach p n f ctx q .queryPending (.outcomeComputed o) →
      ∃ arrivals, Resolve (p.observationQuorum ctx q) n f ≤
          (validObservations p ctx q arrivals).length ∧
        o = p.outcome ctx q (validObservations p ctx q arrivals)) ∧
    (∀ arrivals, (validObservations p ctx q arrivals).length <
        Resolve (p.observationQuorum ctx q) n f →
      ∀ o, ¬ RoundStep p n f ctx q (.observationGathering arrivals) (.outcomeComputed o)) ∧
    (∀ o s, ¬ RoundStep p n f ctx q (.outcomeComputed o) s) := by
  refine ⟨fun o h => roundReach_outcome_inversion h, ?_, ?_⟩
  · intro arrivals hlt o hstep
    cases hstep with
    | computeOutcome _ hquorum => omega
  · intro o s hstep
    cases hstep

/-- C8: Every attributed observation in the sequence passed to `Outcome` has
been accepted by `ValidateObservation` for the same context and query: (1) a
member of the validated sequence passed validation and was among the arrivals;
(2) an observation failing validation never appears in the validated sequence;
(3) any outcome the round produces is `Outcome` applied to a sequence all of
whose members passed validation. -/
theorem outcome_input_all_validated (p : RoundPlugin) (n f : Nat)
    (ctx : OutcomeContext) (q : Bytes) :
    (∀ arrivals ao, ao ∈ validObservations p ctx q arrivals →
      p.validateObservation ctx q ao = true ∧ ao ∈ arrivals) ∧
    (∀ arrivals ao, p.validateObservation ctx q ao = false →
      ao ∉ validObservations p ctx q arrivals) ∧
    (∀ o, RoundReach p n f ctx q .queryPending (.outcomeComputed o) →
      ∃ arrivals, o = p.outcome ctx q (validObservations p ctx q arrivals) ∧
        ∀ ao ∈ validObservations p ctx q arrivals,
          p.validateObservation ctx q ao = true) := by
  refine ⟨?_, ?_, ?_⟩
  · intro arrivals ao hmem
    have := List.mem_filter.mp hmem
    exact ⟨this.2, this.1⟩
  · intro arrivals ao hfail hmem
    have := List.mem_filter.mp hmem
    rw [hfail] at this
    exact Bool.false_ne_true this.2
  · intro o h
    obtain ⟨arrivals, _, ho⟩ := roundReach_outcome_inversion h
    refine ⟨arrivals, ho, fun ao hmem => (List.mem_filter.mp hmem).2⟩

/-- C9: For every report, the accept check runs only after attestation and the
transmit check runs only on accepted reports, immediately before transmission:
(1) a transition into `accepted`/`rejected` — the only transitions modelling
an invocation of `ShouldAcceptAttestedReport` — originates from `attested`;
(2) a transition into `transmitted`/`notTransmitted` — the only transitions
modelling an invocation of `ShouldTransmitAcceptedReport` — originates from
`accepted`; (3,4) the decision out of `attested` (resp. `accepted`) is
determined by `shouldAccept` (resp. `shouldTransmit`) applied to the report's
SeqNr and payload alone, so neither check can depend on call history, round
state or sibling reports; (5) a transmitted report passed both checks. -/
theorem report_checks_routing (p : ReportPlugin) (seqNr : Nat) (r : Bytes) :
    (∀ s s', ReportStep p seqNr r s s' →
      (s' = .accepted ∨ s' = .rejected) → s = .attested) ∧
    (∀ s s', ReportStep p seqNr r s s' →
      (s' = .transmitted ∨ s' = .notTransmitted) → s = .accepted) ∧
    (∀ s', ReportStep p seqNr r .attested s' →
      (s' = .accepted ↔ p.shouldAccept seqNr r = true)) ∧
    (∀ s', ReportStep p seqNr r .accepted s' →
      (s' = .transmitted ↔ p.shouldTransmit seqNr r = true)) ∧
    (ReportReach p seqNr r .pendingAttestation .transmitted →
      p.shouldAccept seqNr r = true ∧ p.shouldTransmit seqNr r = true) := by
  refine ⟨?_, ?_, ?_, ?_, ?_⟩
  · intro s s' hstep hdest
    cases hstep <;> simp_all
  · intro s s' hstep hdest
    cases hstep <;> simp_all
  · intro s' hstep
    cases hstep <;> simp_all
  · intro s' hstep
    cases hstep <;> simp_all
  · intro h
    rcases Relation.ReflTransGen.cases_tail h with heq | ⟨c, hreach, hstep⟩
    · simp at heq
    · cases hstep with
      | transmitTrue ht =>
        rcases Relation.ReflTransGen.cases_tail hreach with heq2 | ⟨c2, _, hstep2⟩
        · simp at heq2
        · cases hstep2 with
          | acceptTrue ha => exact ⟨ha, ht⟩

/-- A concrete plugin exhibiting a quorum-met round: every observation
validates, the quorum kind is `FPlusOne`, and the outcome records the number
of validated observations. -/
def witnessPlugin : RoundPlugin where
  validateObservation := fun _ _ _ => true
  observationQuorum := fun _ _ => .fPlusOne
  outcome := fun _ _ aos => [aos.length]

/-- A concrete initial-round context. -/
def witnessCtx : OutcomeContext :=
  { seqNr := 1, previousOutcome := none, epoch := 0, round := 0 }

/-- A concrete attributed observation from oracle 0. -/
def witnessAO : AttributedObservation := { observation := [5], observer := 0 }

/-- A concrete report plugin accepting and transmitting every report. -/
def witnessReportPlugin : ReportPlugin where
  shouldAccept := fun _ _ => true
  shouldTransmit := fun _ _ => true

/-- Witness for C3: with one always-valid observation, `N = 1`, `F = 0` and an
`FPlusOne` quorum, the round reaches the outcome stage and the outcome is
`Outcome` of the validated observations of a quorum-meeting arrival list. -/
theorem roundOutcome_only_after_observationQuorum_witness :
    ∃ arrivals, Resolve (witnessPlugin.observationQuorum witnessCtx []) 1 0 ≤
        (validObservations witnessPlugin witnessCtx [] arrivals).length ∧
      [1] = witnessPlugin.outcome witnessCtx []
        (validObservations witnessPlugin witnessCtx [] arrivals) :=
  (roundOutcome_only_after_observationQuorum witnessPlugin 1 0 witnessCtx []).1 [1]
    (Relation.ReflTransGen.tail
      (Relation.ReflTransGen.tail
        (Relation.ReflTransGen.single RoundStep.query)
        (RoundStep.arrive [] witnessAO))
      (RoundStep.computeOutcome ([] ++ [witnessAO]) (by decide)))

/-- Witness for C8: the single arrival is in the validated sequence, so it
passed validation and was among the arrivals. -/
theorem outcome_input_all_validated_witness :
    witnessPlugin.validateObservation witnessCtx [] witnessAO = true ∧
    witnessAO ∈ [witnessAO] :=
  (outcome_input_all_validated witnessPlugin 1 0 witnessCtx []).1 [witnessAO] witnessAO
    (by decide)

/-- Witness for C9: a report routed through attestation, acceptance and
transmission passed both checks. -/
theorem report_checks_routing_witness :
    witnessReportPlugin.shouldAccept 1 [] = true ∧
    witnessReportPlugin.shouldTransmit 1 [] = true :=
  (report_checks_routing witnessReportPlugin 1 []).2.2.2.2
    (Relation.ReflTransGen.tail
      (Relation.ReflTransGen.tail
        (Relation.ReflTransGen.single ReportStep.attest)
        (ReportStep.acceptTrue rfl))
      (ReportStep.transmitTrue rfl))

end Ocr3Types
